import Mathlib

/-!
Verification of the check_mssql Nagios plugin (main.go, config/config.go).

The embedding models the check-execution engine: `runQuery` (connection,
liveness probe, query execution, first-row extraction and formatting),
the select-based classification in `main` (`classify`), and the argument /
credential handling leading up to it (`mainExitCode`, `loadCredentials`).
External collaborators — the SQL driver and Go's regexp package — are
modelled as abstract inputs: a `DbWorld` records, for each fallible driver
call of `runQuery`, whether it fails and what the first row holds, and the
regex engine is an arbitrary function returning either a compile error or
a match verdict, mirroring `regexp.MatchString`.
-/

namespace CheckMssql

/-- Nagios exit codes, from the constant block at the top of main.go. -/
def okCode : Nat := 0

/-- Exit code 1, declared in main.go but (as proved below) never produced. -/
def warningCode : Nat := 1

/-- Exit code 2 for CRITICAL verdicts. -/
def criticalCode : Nat := 2

/-- Exit code 3 for UNKNOWN verdicts. -/
def unknownCode : Nat := 3

/-- The settings structure of config/config.go (`config.Config`).
`timeout` is an `int` number of seconds in the source, hence `Int` here. -/
structure Config where
  verbose : Bool
  server : String
  port : Int
  username : String
  password : String
  database : String
  timeout : Int
  query : String
  regex : String
deriving Repr, DecidableEq

/-- A scanned column value, as discriminated by the `switch v := val.(type)`
in `runQuery`: `nil`, `[]byte`, or anything else.  The default branch calls
`fmt.Sprintf("%v", v)`; that open-ended default rendering is modelled by
storing the rendered text itself. -/
inductive SqlValue where
  | null : SqlValue
  | bin (bytes : String) : SqlValue
  | other (rendered : String) : SqlValue
deriving Repr, DecidableEq

/-- Rendering of one value inside the loop of `runQuery`: `nil` appends "",
`[]byte` appends `string(v)`, the default appends `fmt.Sprintf("%v", v)`. -/
def renderValue : SqlValue → String
  | .null => ""
  | .bin b => b
  | .other r => r

/-- The final line of `runQuery`: each value rendered, joined with ";"
(`strings.Join(result, ";")`). -/
def formatRow (vals : List SqlValue) : String :=
  String.intercalate ";" (vals.map renderValue)

/-- Abstract behaviour of the SQL driver during one `runQuery` call: for each
fallible step of `runQuery` in source order, either `none` (the step
succeeds) or `some cause` (the driver reports that cause), plus the rows the
cursor would yield. -/
structure DbWorld where
  openErr : Option String
  pingErr : Option String
  queryErr : Option String
  columnsErr : Option String
  scanErr : Option String
  rows : List (List SqlValue)
deriving Repr

/-- The `runQuery` function of main.go: open the connection, ping it, run the
query, demand a first row, read columns, scan, format.  Each failure is
wrapped with the exact prefix the source puts in its `fmt.Errorf` call. -/
def runQuery (w : DbWorld) : Except String String :=
  match w.openErr with
  | some e => .error ("can't connect to server: " ++ e)
  | none =>
    match w.pingErr with
    | some e => .error ("can't ping server: " ++ e)
    | none =>
      match w.queryErr with
      | some e => .error ("query error: " ++ e)
      | none =>
        match w.rows with
        | [] => .error "query returned no rows"
        | row :: _ =>
          match w.columnsErr with
          | some e => .error ("error getting columns: " ++ e)
          | none =>
            match w.scanErr with
            | some e => .error ("error scanning row: " ++ e)
            | none => .ok (formatRow row)

/-- Which event fires first in the `select` of `main`: a result on
`resultChan`, an error on `errChan`, or the `time.After` timer. -/
inductive Outcome where
  | result (s : String) : Outcome
  | fail (err : String) : Outcome
  | timedOut : Outcome
deriving Repr, DecidableEq

/-- Outcome of `regexp.MatchString(pattern, text)`: a compile error message
or a match verdict.  Left abstract — Go's regex engine is an external
collaborator. -/
abbrev MatchEngine := String → String → Except String Bool

/-- A verdict as emitted by `main`: the line printed to stdout (without the
trailing newline) and the process exit code. -/
structure Report where
  message : String
  code : Nat
deriving Repr, DecidableEq

/-- The guard of the classification branch in `main`:
`(config.AppConfig.Query != "") && (config.AppConfig.Regex != "")`. -/
def regexGuard (cfg : Config) : Bool :=
  cfg.query != "" && cfg.regex != ""

/-- The `select` statement of `main`: maps the first event (result, error,
or timeout) to the printed line and exit code, running the regex check when
the guard holds.  The timeout branch prints the server and the raw `int`
timeout via `%v`, modelled by `toString`. -/
def classify (engine : MatchEngine) (cfg : Config) (o : Outcome) : Report :=
  match o with
  | .result r =>
    if regexGuard cfg then
      match engine cfg.regex r with
      | .error e => ⟨"SQL CRITICAL: Invalid regex: " ++ e, criticalCode⟩
      | .ok true => ⟨"SQL CRITICAL: " ++ r ++ "|" ++ r, criticalCode⟩
      | .ok false => ⟨"SQL OK: " ++ r ++ "|" ++ r, okCode⟩
    else ⟨"SQL OK: " ++ r ++ "|" ++ r, okCode⟩
  | .fail e => ⟨"SQL CRITICAL: " ++ e, criticalCode⟩
  | .timedOut =>
    ⟨"SQL UNKNOWN: ERROR connection " ++ cfg.server ++ " (timeout after " ++
      toString cfg.timeout ++ ")", unknownCode⟩

/-- One `key=value` line of the credentials file: `strings.SplitN(line, "=", 2)`
with both halves trimmed; a line without "=" is skipped (`none`). -/
def splitKeyValue (line : String) : Option (String × String) :=
  match line.splitOn "=" with
  | [] => none
  | [_] => none
  | k :: rest => some (k.trim, (String.intercalate "=" rest).trim)

/-- The `creds` map built by `loadCredentials`: the file is split on newlines,
each line trimmed, empty and "#" lines skipped, and every parsed pair
recorded in order (a later pair for the same key overwrites, see
`lookupLast`). -/
def credEntries (data : String) : List (String × String) :=
  (data.splitOn "\n").foldl
    (fun acc rawLine =>
      let line := rawLine.trim
      if line == "" || line.startsWith "#" then acc
      else
        match splitKeyValue line with
        | none => acc
        | some kv => acc ++ [kv])
    []

/-- Map lookup on the ordered entry list: the last write to a key wins,
matching Go map assignment semantics. -/
def lookupLast (key : String) (entries : List (String × String)) :
    Option String :=
  entries.foldl (fun acc kv => if kv.1 == key then some kv.2 else acc) none

/-- The pure part of `loadCredentials` in main.go, applied to the file's
text: parse the lines and demand both a `username` and a `password` entry. -/
def loadCredentials (data : String) : Except String (String × String) :=
  let creds := credEntries data
  match lookupLast "username" creds with
  | none => .error "credentials file missing username"
  | some u =>
    match lookupLast "password" creds with
    | none => .error "credentials file missing password"
    | some p => .ok (u, p)

/-- The parsed command-line flags of main.go (after pflag parsing). -/
structure Flags where
  version : Bool
  help : Bool
  verbose : Bool
  server : String
  port : Int
  username : String
  password : String
  credfile : String
  database : String
  timeout : Int
  query : String
  regex : String
deriving Repr

/-- The `config.AppConfig` value `main` builds once the flags are validated;
`u` and `p` are the username/password after optional credential-file
loading. -/
def mkConfig (fl : Flags) (u p : String) : Config :=
  { verbose := fl.verbose, server := fl.server, port := fl.port,
    username := u, password := p, database := fl.database,
    timeout := fl.timeout, query := fl.query, regex := fl.regex }

/-- Resolution of the credentials in `main`: when a credentials file is
named, an unreadable file (modelled by `none`) or a parse failure is an
error; otherwise the username/password flags stand. -/
def credResult (fl : Flags) (credFileContent : Option String) :
    Except String (String × String) :=
  if fl.credfile != "" then
    match credFileContent with
    | none => .error "failed to read credentials file"
    | some data => loadCredentials data
  else .ok (fl.username, fl.password)

/-- The full exit behaviour of `main`: version and help exit OK; a
credential-file failure exits UNKNOWN; missing required arguments exit
UNKNOWN; otherwise the select-based classification decides. -/
def mainExitCode (engine : MatchEngine) (fl : Flags)
    (credFileContent : Option String) (o : Outcome) : Nat :=
  if fl.version then okCode
  else if fl.help then okCode
  else
    match credResult fl credFileContent with
    | .error _ => unknownCode
    | .ok (u, p) =>
      if fl.server == "" || u == "" || p == "" || fl.query == "" then
        unknownCode
      else (classify engine (mkConfig fl u p) o).code

/-- Concrete sample configurations for witnesses. -/
def cfgNoRegex : Config :=
  ⟨false, "db1", 1433, "sa", "pw", "", 15, "SELECT 1", ""⟩

/-- A configuration with a pattern configured, for witnesses. -/
def cfgWithRegex : Config :=
  { cfgNoRegex with regex := "bad" }

/-- A driver world where every step succeeds but the result set is empty. -/
def dbEmptyRows : DbWorld := ⟨none, none, none, none, none, []⟩

/-- A driver world where the liveness probe (ping) fails. -/
def dbPingFail : DbWorld :=
  ⟨none, some "auth failed", none, none, none, []⟩

/-- C1: with no pattern configured, a result delivered before the deadline is
reported as exactly `SQL OK: <joined>|<joined>` — the performance-data field
after the bar is byte-identical to the display text — with exit code 0. -/
theorem sql_ok_no_pattern (engine : MatchEngine) (cfg : Config) (r : String)
    (h : cfg.regex = "") :
    classify engine cfg (Outcome.result r) =
      ⟨"SQL OK: " ++ r ++ "|" ++ r, 0⟩ := by
  simp [classify, regexGuard, h, okCode]

/-- Witness for C1 at a concrete configuration and result. -/
theorem sql_ok_no_pattern_witness :
    classify (fun _ _ => Except.ok true) cfgNoRegex (Outcome.result "1;x") =
      ⟨"SQL OK: " ++ "1;x" ++ "|" ++ "1;x", 0⟩ :=
  sql_ok_no_pattern (fun _ _ => Except.ok true) cfgNoRegex "1;x" rfl

/-- C2 counterexample: at server "db1" and a 15 second budget the timeout
line is `SQL UNKNOWN: ERROR connection db1 (timeout after 15)` — the budget
is printed as a bare integer, not with an `s` unit suffix as claimed. -/
theorem timeout_no_unit_suffix :
    (classify (fun _ _ => Except.ok false) cfgNoRegex Outcome.timedOut).code
        = 3 ∧
      (classify (fun _ _ => Except.ok false) cfgNoRegex
          Outcome.timedOut).message =
        "SQL UNKNOWN: ERROR connection db1 (timeout after 15)" ∧
      (classify (fun _ _ => Except.ok false) cfgNoRegex
          Outcome.timedOut).message ≠
        "SQL UNKNOWN: ERROR connection db1 (timeout after 15s)" := by
  refine ⟨rfl, by decide, by decide⟩

/-- C2 amended: when the budget elapses first the program exits 3 and prints
`SQL UNKNOWN: ERROR connection <host> (timeout after <N>)`, naming the
configured host and the budget as a bare number of seconds (the source
formats the integer `Timeout` field with `%v`, so no unit suffix). -/
theorem timeout_report (engine : MatchEngine) (cfg : Config) :
    classify engine cfg Outcome.timedOut =
      ⟨"SQL UNKNOWN: ERROR connection " ++ cfg.server ++
        " (timeout after " ++ toString cfg.timeout ++ ")", 3⟩ :=
  rfl

/-- C3: a pattern whose compilation fails on a successful result is escalated
to CRITICAL — exit code 2, never 3 — with message
`SQL CRITICAL: Invalid regex: <cause>`. -/
theorem invalid_regex_critical (engine : MatchEngine) (cfg : Config)
    (r e : String) (hq : cfg.query ≠ "") (hr : cfg.regex ≠ "")
    (he : engine cfg.regex r = Except.error e) :
    classify engine cfg (Outcome.result r) =
        ⟨"SQL CRITICAL: Invalid regex: " ++ e, 2⟩ ∧
      (classify engine cfg (Outcome.result r)).code ≠ 3 := by
  have hg : regexGuard cfg = true := by simp [regexGuard, hq, hr]
  constructor
  · simp [classify, hg, he, criticalCode]
  · simp [classify, hg, he, criticalCode]

/-- Witness for C3 with a concrete failing compilation. -/
theorem invalid_regex_critical_witness :
    classify (fun _ _ => Except.error "missing closing )") cfgWithRegex
          (Outcome.result "x") =
        ⟨"SQL CRITICAL: Invalid regex: " ++ "missing closing )", 2⟩ ∧
      (classify (fun _ _ => Except.error "missing closing )") cfgWithRegex
          (Outcome.result "x")).code ≠ 3 :=
  invalid_regex_critical (fun _ _ => Except.error "missing closing )")
    cfgWithRegex "x" "missing closing )" (by decide) (by decide) rfl

/-- C4: with a well-formed configured pattern, a match against the joined
text yields `SQL CRITICAL: <r>|<r>` with exit 2, and a non-match yields
`SQL OK: <r>|<r>` with exit 0. -/
theorem pattern_verdicts (engine : MatchEngine) (cfg : Config) (r : String)
    (hq : cfg.query ≠ "") (hr : cfg.regex ≠ "") :
    (engine cfg.regex r = Except.ok true →
        classify engine cfg (Outcome.result r) =
          ⟨"SQL CRITICAL: " ++ r ++ "|" ++ r, 2⟩) ∧
      (engine cfg.regex r = Except.ok false →
        classify engine cfg (Outcome.result r) =
          ⟨"SQL OK: " ++ r ++ "|" ++ r, 0⟩) := by
  have hg : regexGuard cfg = true := by simp [regexGuard, hq, hr]
  constructor
  · intro he; simp [classify, hg, he, criticalCode]
  · intro he; simp [classify, hg, he, okCode]

/-- Witness for C4: a matching engine gives CRITICAL, a non-matching engine
gives OK, at a concrete configuration and result. -/
theorem pattern_verdicts_witness :
    classify (fun _ _ => Except.ok true) cfgWithRegex (Outcome.result "a") =
        ⟨"SQL CRITICAL: " ++ "a" ++ "|" ++ "a", 2⟩ ∧
      classify (fun _ _ => Except.ok false) cfgWithRegex
          (Outcome.result "a") =
        ⟨"SQL OK: " ++ "a" ++ "|" ++ "a", 0⟩ :=
  ⟨(pattern_verdicts (fun _ _ => Except.ok true) cfgWithRegex "a"
      (by decide) (by decide)).1 rfl,
    (pattern_verdicts (fun _ _ => Except.ok false) cfgWithRegex "a"
      (by decide) (by decide)).2 rfl⟩

/-- C5: a query that runs but yields zero rows makes the extractor fail with
the empty-result error, and the classification of that failure is CRITICAL:
exit 2 with a message reporting the empty-result condition. -/
theorem empty_result_critical (w : DbWorld) (engine : MatchEngine)
    (cfg : Config) (h1 : w.openErr = none) (h2 : w.pingErr = none)
    (h3 : w.queryErr = none) (h4 : w.rows = []) :
    runQuery w = Except.error "query returned no rows" ∧
      classify engine cfg (Outcome.fail "query returned no rows") =
        ⟨"SQL CRITICAL: query returned no rows", 2⟩ := by
  constructor
  · simp [runQuery, h1, h2, h3, h4]
  · rfl

/-- Witness for C5 at a concrete driver world. -/
theorem empty_result_critical_witness :
    runQuery dbEmptyRows = Except.error "query returned no rows" ∧
      classify (fun _ _ => Except.ok false) cfgNoRegex
          (Outcome.fail "query returned no rows") =
        ⟨"SQL CRITICAL: query returned no rows", 2⟩ :=
  empty_result_critical dbEmptyRows (fun _ _ => Except.ok false) cfgNoRegex
    rfl rfl rfl rfl

/-- C6: formatting renders values in column order joined with ";": NULL
renders as empty text, binary as its raw bytes as text, anything else via
its default textual representation, and the row (NULL, "2024-01-01", 42)
formats to `;2024-01-01;42`. -/
theorem format_row_rendering :
    renderValue SqlValue.null = "" ∧
      (∀ b, renderValue (SqlValue.bin b) = b) ∧
      (∀ s, renderValue (SqlValue.other s) = s) ∧
      (∀ a b, formatRow [a, b] = renderValue a ++ ";" ++ renderValue b) ∧
      formatRow [SqlValue.null, SqlValue.bin "2024-01-01",
          SqlValue.other "42"] =
        ";2024-01-01;42" := by
  exact ⟨rfl, fun b => rfl, fun s => rfl, fun a b => rfl, by decide⟩

/-- C7: a failing liveness probe makes `runQuery` fail with
"can't ping server: <cause>", and the classification of that failure prints
`SQL CRITICAL: <cause>` — containing no "|" performance-data separator when
the cause has none — and exits 2. -/
theorem ping_failure_critical (w : DbWorld) (engine : MatchEngine)
    (cfg : Config) (e : String) (h1 : w.openErr = none)
    (h2 : w.pingErr = some e) :
    runQuery w = Except.error ("can't ping server: " ++ e) ∧
      classify engine cfg (Outcome.fail ("can't ping server: " ++ e)) =
        ⟨"SQL CRITICAL: " ++ ("can't ping server: " ++ e), 2⟩ ∧
      (Char.ofNat 124 ∉ e.data →
        Char.ofNat 124 ∉
          (classify engine cfg
            (Outcome.fail ("can't ping server: " ++ e))).message.data) := by
  refine ⟨?_, rfl, ?_⟩
  · simp [runQuery, h1, h2]
  · intro he
    show Char.ofNat 124 ∉
      ("SQL CRITICAL: " ++ ("can't ping server: " ++ e)).data
    simp only [String.data_append, List.mem_append]
    rintro (h | h | h)
    · revert h; decide
    · revert h; decide
    · exact he h

/-- Witness for C7 at a concrete probe failure. -/
theorem ping_failure_critical_witness :
    runQuery dbPingFail =
        Except.error ("can't ping server: " ++ "auth failed") ∧
      classify (fun _ _ => Except.ok false) cfgNoRegex
          (Outcome.fail ("can't ping server: " ++ "auth failed")) =
        ⟨"SQL CRITICAL: " ++ ("can't ping server: " ++ "auth failed"), 2⟩ ∧
      (Char.ofNat 124 ∉ ("auth failed" : String).data →
        Char.ofNat 124 ∉
          (classify (fun _ _ => Except.ok false) cfgNoRegex
            (Outcome.fail
              ("can't ping server: " ++ "auth failed"))).message.data) :=
  ping_failure_critical dbPingFail (fun _ _ => Except.ok false) cfgNoRegex
    "auth failed" rfl rfl

/-- Helper: the select-based classification only ever yields the OK,
CRITICAL or UNKNOWN exit codes. -/
theorem classify_code_cases (engine : MatchEngine) (cfg : Config)
    (o : Outcome) :
    (classify engine cfg o).code = okCode ∨
      (classify engine cfg o).code = criticalCode ∨
      (classify engine cfg o).code = unknownCode := by
  cases o with
  | result r =>
    cases hg : regexGuard cfg with
    | false => simp [classify, hg]
    | true =>
      cases he : engine cfg.regex r with
      | error e => simp [classify, hg, he]
      | ok b => cases b <;> simp [classify, hg, he]
  | fail e => simp [classify]
  | timedOut => simp [classify]

/-- C8: the program never exits with the WARNING code 1: over every parsed
flag set, credential-file content and pipeline outcome, the exit code is
one of 0, 2, 3. -/
theorem never_warning (engine : MatchEngine) (fl : Flags)
    (content : Option String) (o : Outcome) :
    mainExitCode engine fl content o ≠ warningCode ∧
      (mainExitCode engine fl content o = okCode ∨
        mainExitCode engine fl content o = criticalCode ∨
        mainExitCode engine fl content o = unknownCode) := by
  have key : mainExitCode engine fl content o = okCode ∨
      mainExitCode engine fl content o = criticalCode ∨
      mainExitCode engine fl content o = unknownCode := by
    unfold mainExitCode
    split
    · exact Or.inl rfl
    split
    · exact Or.inl rfl
    split
    · exact Or.inr (Or.inr rfl)
    split
    · exact Or.inr (Or.inr rfl)
    · exact classify_code_cases engine _ o
  refine ⟨?_, key⟩
  rcases key with h | h | h <;> rw [h] <;> decide

/-- C9: formatting is deterministic — rendering and joining the same
sequence of scanned values twice yields byte-identical FormattedResult
strings. -/
theorem formatting_deterministic (v w : List SqlValue) (h : v = w) :
    formatRow v = formatRow w ∧ (formatRow v).data = (formatRow w).data := by
  rw [h]; exact ⟨rfl, rfl⟩

/-- Witness for C9 at a concrete row. -/
theorem formatting_deterministic_witness :
    formatRow [SqlValue.null, SqlValue.other "42"] =
        formatRow [SqlValue.null, SqlValue.other "42"] ∧
      (formatRow [SqlValue.null, SqlValue.other "42"]).data =
        (formatRow [SqlValue.null, SqlValue.other "42"]).data :=
  formatting_deterministic _ _ rfl

/-- C10: an empty pattern string counts as no pattern configured — given the
query is non-empty (as main has validated), the classification branch guard
holds exactly when the Regex setting is non-empty, and with an empty Regex
every in-deadline result is OK with exit 0, whatever the engine would
match. -/
theorem empty_regex_no_classification (engine : MatchEngine) (cfg : Config)
    (r : String) (hq : cfg.query ≠ "") :
    (regexGuard cfg = true ↔ cfg.regex ≠ "") ∧
      (cfg.regex = "" →
        classify engine cfg (Outcome.result r) =
          ⟨"SQL OK: " ++ r ++ "|" ++ r, 0⟩) := by
  constructor
  · simp [regexGuard, hq]
  · intro hr
    simp [classify, regexGuard, hr, okCode]

/-- Witness for C10: with an empty Regex even an always-matching engine
yields OK. -/
theorem empty_regex_no_classification_witness :
    (regexGuard cfgNoRegex = true ↔ cfgNoRegex.regex ≠ "") ∧
      classify (fun _ _ => Except.ok true) cfgNoRegex (Outcome.result "a") =
        ⟨"SQL OK: " ++ "a" ++ "|" ++ "a", 0⟩ := by
  have h := empty_regex_no_classification (fun _ _ => Except.ok true)
    cfgNoRegex "a" (by decide)
  exact ⟨h.1, h.2 rfl⟩

end CheckMssql
